import Mathlib

/-!
Verification of the GRIT RC-format output pipeline (grit/format/rc.py and
grit/node/include.py) against its natural-language specification.

The Python sources are shallowly embedded below: pure string-processing
functions become Lean functions on `String` / `List Char`, the include
node's two mutable cache fields become an explicit `IncludeState`
threaded through the operations, filesystem writes become an explicit
list of (path, contents) pairs, and external collaborators (the HTML
inliner, path relativization, the id table, raw file reads) become
function or association-list parameters.
-/

namespace GritRc

/-- Embedding of Python `message.replace('"', '""')` (rc.py, Message.Format):
every double-quote character is doubled. -/
def replaceQuotes : List Char → List Char
  | [] => []
  | c :: rest => if c = '"' then '"' :: '"' :: replaceQuotes rest else c :: replaceQuotes rest

/-- Modelled from the spec: `util.LINEBREAKS.sub(r'\\n', message)` where
`util.LINEBREAKS` (grit/util.py, not part of the provided sources) matches
CR LF, LF, or CR; each match is replaced by the two-character sequence
backslash `n`.  The regex alternation tries CRLF first, so a CRLF pair is
consumed as one match. -/
def subLinebreaks : List Char → List Char
  | [] => []
  | [c] => if c = '\r' ∨ c = '\n' then ['\\', 'n'] else [c]
  | a :: b :: rest =>
    if a = '\r' then
      if b = '\n' then '\\' :: 'n' :: subLinebreaks rest
      else '\\' :: 'n' :: subLinebreaks (b :: rest)
    else if a = '\n' then '\\' :: 'n' :: subLinebreaks (b :: rest)
    else a :: subLinebreaks (b :: rest)

/-- The escaping stage of `Message.Format` (rc.py lines 341-345): double the
quotes, then replace line breaks by the literal backslash-n. -/
def escapeMessage (s : String) : String :=
  ⟨subLinebreaks (replaceQuotes s.data)⟩

/-- `true` iff the character list contains no raw CR or LF. -/
def noRawLinebreak (l : List Char) : Bool :=
  l.all (fun c => !(c == '\r' || c == '\n'))

/-- Helper for `evenQuoteRuns`: `p` records whether an odd number of
double-quote characters has been seen in the current run; at a run
boundary (a non-quote character or the end of the list) `p` must be
`false`. -/
def quoteRunsEven : List Char → Bool → Bool
  | [], p => !p
  | c :: rest, p =>
    if c = '"' then quoteRunsEven rest (!p)
    else if p then false else quoteRunsEven rest false

/-- `true` iff every maximal run of double-quote characters has even length,
i.e. no unescaped (un-doubled) quote remains. -/
def evenQuoteRuns (l : List Char) : Bool :=
  quoteRunsEven l false

theorem subLinebreaks_noRawLinebreak :
    ∀ t : List Char, noRawLinebreak (subLinebreaks t) = true := by
  intro t
  induction t using subLinebreaks.induct <;>
    simp_all [subLinebreaks, noRawLinebreak]

theorem subLinebreaks_cons_nonbreak {c : Char} (t : List Char)
    (h1 : c ≠ '\r') (h2 : c ≠ '\n') :
    subLinebreaks (c :: t) = c :: subLinebreaks t := by
  cases t <;> simp [subLinebreaks, h1, h2]

theorem replaceQuotes_quoteRunsEven :
    ∀ s : List Char, quoteRunsEven (replaceQuotes s) false = true := by
  intro s
  induction s with
  | nil => rfl
  | cons c rest ih =>
    by_cases hc : c = '"' <;> simp [replaceQuotes, quoteRunsEven, hc, ih]

theorem subLinebreaks_quoteRunsEven :
    ∀ (t : List Char) (p : Bool),
      quoteRunsEven t p = true → quoteRunsEven (subLinebreaks t) p = true := by
  intro t
  induction t using subLinebreaks.induct with
  | case1 => intro p hp; simpa [subLinebreaks] using hp
  | case2 c hc =>
    intro p hp
    have hcq : c ≠ '"' := by rcases hc with h | h <;> subst h <;> decide
    have hp0 : p = false := by
      cases p
      · rfl
      · simp [quoteRunsEven, hcq] at hp
    subst hp0
    rw [show subLinebreaks [c] = ['\\', 'n'] by simp [subLinebreaks, hc]]
    decide
  | case3 c hc =>
    intro p hp
    rw [show subLinebreaks [c] = [c] by simp [subLinebreaks, hc]]
    exact hp
  | case4 rest ih =>
    intro p hp
    have hp0 : p = false := by
      cases p
      · rfl
      · simp [quoteRunsEven] at hp
    subst hp0
    have hp2 : quoteRunsEven rest false = true := by
      simpa [quoteRunsEven] using hp
    have hrec := ih false hp2
    simpa [subLinebreaks, quoteRunsEven] using hrec
  | case5 b rest hb ih =>
    intro p hp
    have hp0 : p = false := by
      cases p
      · rfl
      · simp [quoteRunsEven] at hp
    subst hp0
    have hp2 : quoteRunsEven (b :: rest) false = true := by
      simpa [quoteRunsEven] using hp
    have hrec := ih false hp2
    rw [show subLinebreaks ('\r' :: b :: rest) = '\\' :: 'n' :: subLinebreaks (b :: rest) by
      simp [subLinebreaks, hb]]
    simpa [quoteRunsEven] using hrec
  | case6 b rest hne ih =>
    intro p hp
    have hp0 : p = false := by
      cases p
      · rfl
      · simp [quoteRunsEven] at hp
    subst hp0
    have hp2 : quoteRunsEven (b :: rest) false = true := by
      simpa [quoteRunsEven] using hp
    have hrec := ih false hp2
    rw [show subLinebreaks ('\n' :: b :: rest) = '\\' :: 'n' :: subLinebreaks (b :: rest) by
      simp [subLinebreaks]]
    simpa [quoteRunsEven] using hrec
  | case7 a b rest ha ha2 ih =>
    intro p hp
    rw [subLinebreaks_cons_nonbreak _ ha ha2]
    by_cases haq : a = '"'
    · subst haq
      have hp2 : quoteRunsEven (b :: rest) (!p) = true := by
        simpa [quoteRunsEven] using hp
      have hrec := ih (!p) hp2
      simpa [quoteRunsEven] using hrec
    · have hp0 : p = false := by
        cases p
        · rfl
        · simp [quoteRunsEven, haq] at hp
      subst hp0
      have hp2 : quoteRunsEven (b :: rest) false = true := by
        simpa [quoteRunsEven, haq] using hp
      have hrec := ih false hp2
      simpa [quoteRunsEven, haq] using hrec

theorem replaceQuotes_evenQuoteRuns (s : List Char) :
    evenQuoteRuns (replaceQuotes s) = true :=
  replaceQuotes_quoteRunsEven s

theorem escape_evenQuoteRuns (s : List Char) :
    evenQuoteRuns (subLinebreaks (replaceQuotes s)) = true :=
  subLinebreaks_quoteRunsEven (replaceQuotes s) false (replaceQuotes_quoteRunsEven s)

theorem replaceQuotes_count :
    ∀ s : List Char, (replaceQuotes s).count '"' = 2 * s.count '"' := by
  intro s
  induction s with
  | nil => rfl
  | cons c rest ih =>
    by_cases hc : c = '"'
    · simp [replaceQuotes, List.count_cons, hc, ih]
      omega
    · simp [replaceQuotes, List.count_cons, hc, ih]

theorem subLinebreaks_count :
    ∀ t : List Char, (subLinebreaks t).count '"' = t.count '"' := by
  intro t
  induction t using subLinebreaks.induct <;>
    simp_all [subLinebreaks, List.count_cons]
  split <;> simp_all [List.count_cons]

/-- Left-justified space padding to `n` columns: embedding of Python
`'%-15s'`-style formatting (no truncation when the string is longer). -/
def padRight (n : Nat) (s : String) : String :=
  s ++ ⟨List.replicate (n - s.data.length) ' '⟩

/-- Embedding of `Message.Format` (rc.py lines 336-352).  The translated
message with its whitespace markers is escaped (quote doubling, then
linebreak substitution); if the tree root carries a substituter it is
applied to the escaped text; the emitted line is
two spaces, the name padded to 15 columns, a space, and the quoted text,
ending in a newline.  The root's optional substituter is the `subst`
parameter; `name` is `GetTextualIds()[0]`. -/
def messageFormat (subst : Option (String → String))
    (name ws_at_start translated ws_at_end : String) : String :=
  let message := ws_at_start ++ translated ++ ws_at_end
  let message := escapeMessage message
  let message := match subst with | some f => f message | none => message
  "  " ++ padRight 15 name ++ " \"" ++ message ++ "\"\n"

/-- Embedding of `StringTable.Format` (rc.py line 326). -/
def stringTableFormat : String := "STRINGTABLE\nBEGIN\n"

/-- Embedding of `StringTable.FormatEnd` (rc.py line 330). -/
def stringTableFormatEnd : String := "END\n\n"

/-- C1: For every message node and every translated text, the Message
formatter's output escapes the text so that every double-quote occurrence
is doubled (no unescaped single quote remains inside the quoted text: the
quote count doubles and every maximal quote run in the escaped text has
even length) and every line break (CR, LF, or CRLF) is replaced by the
two-character literal sequence backslash-n (no raw line break remains
inside the quoted text).  Stated for a root without a substituter, whose
presence would apply an external replacement after escaping. -/
theorem c1_message_escaping (name ws_at_start translated ws_at_end : String) :
    messageFormat none name ws_at_start translated ws_at_end
      = "  " ++ padRight 15 name ++ " \""
          ++ escapeMessage (ws_at_start ++ translated ++ ws_at_end) ++ "\"\n"
    ∧ noRawLinebreak (escapeMessage (ws_at_start ++ translated ++ ws_at_end)).data = true
    ∧ evenQuoteRuns (escapeMessage (ws_at_start ++ translated ++ ws_at_end)).data = true
    ∧ (escapeMessage (ws_at_start ++ translated ++ ws_at_end)).data.count '"'
        = 2 * ((ws_at_start ++ translated ++ ws_at_end).data.count '"') := by
  refine ⟨rfl, ?_, ?_, ?_⟩
  · exact subLinebreaks_noRawLinebreak _
  · exact escape_evenQuoteRuns _
  · show (subLinebreaks (replaceQuotes _)).count '"' = _
    rw [subLinebreaks_count, replaceQuotes_count]

/-- C6: A message named `IDS_BTN_GO` with text `Go!` renders as the exact
line `  IDS_BTN_GO      "Go!"` (followed by a line break) inside a
STRINGTABLE/BEGIN...END block, the grouping formatter emitting
`STRINGTABLE\nBEGIN\n` on begin and `END\n\n` on end; and in general the
emitted line is two spaces, the resource name padded to 15 columns, a
space, the escaped (and, if present, substituted) text in double quotes,
then a line break. -/
theorem c6_stringtable_line_shape :
    stringTableFormat ++ messageFormat none "IDS_BTN_GO" "" "Go!" "" ++ stringTableFormatEnd
      = "STRINGTABLE\nBEGIN\n  IDS_BTN_GO      \"Go!\"\nEND\n\n"
    ∧ ∀ (subst : Option (String → String)) (name ws_at_start translated ws_at_end : String),
        messageFormat subst name ws_at_start translated ws_at_end
          = "  " ++ padRight 15 name ++ " \""
              ++ (match subst with
                  | some f => f (escapeMessage (ws_at_start ++ translated ++ ws_at_end))
                  | none => escapeMessage (ws_at_start ++ translated ++ ws_at_end))
              ++ "\"\n" := by
  constructor
  · rfl
  · intro subst name ws_at_start translated ws_at_end
    cases subst <;> rfl

/-! ## Locale tables (rc.py lines 53-220) -/

/-- Embedding of `_LANGUAGE_CHARSET_PAIR` (rc.py lines 53-140), in source
order.  Values are 8-hex-digit strings: 4 digits of LCID then 4 digits of
code-page id. -/
def _LANGUAGE_CHARSET_PAIR : List (String × String) := [
  ("neutral", "000004b0"),
  ("userdefault", "040004b0"),
  ("ar", "040104e8"),
  ("fi", "040b04e4"),
  ("ko", "041203b5"),
  ("es", "040a04e4"),
  ("bg", "040204e3"),
  ("fil", "046404e4"),
  ("fr", "040c04e4"),
  ("lv", "042604e9"),
  ("sv", "041d04e4"),
  ("ca", "040304e4"),
  ("de", "040704e4"),
  ("lt", "042704e9"),
  ("tl", "0c0004b0"),
  ("zh-CN", "080403a8"),
  ("zh-TW", "040403b6"),
  ("zh-HK", "0c0403b6"),
  ("el", "040804e5"),
  ("no", "041404e4"),
  ("th", "041e036a"),
  ("he", "040d04e7"),
  ("iw", "040d04e7"),
  ("pl", "041504e2"),
  ("tr", "041f04e6"),
  ("hr", "041a04e4"),
  ("hi", "043904b0"),
  ("pt-PT", "081604e4"),
  ("pt-BR", "041604e4"),
  ("uk", "042204e3"),
  ("cs", "040504e2"),
  ("hu", "040e04e2"),
  ("ro", "041804e2"),
  ("ur", "042004b0"),
  ("da", "040604e4"),
  ("is", "040f04e4"),
  ("ru", "041904e3"),
  ("vi", "042a04ea"),
  ("nl", "041304e4"),
  ("id", "042104e4"),
  ("sr", "081a04e2"),
  ("en-GB", "0809040e"),
  ("it", "041004e4"),
  ("sk", "041b04e2"),
  ("et", "042504e9"),
  ("ja", "041103a4"),
  ("sl", "042404e2"),
  ("en", "040904b0"),
  ("es-419", "080a04e4"),
  ("bn", "044504b0"),
  ("fa", "042904e8"),
  ("gu", "044704b0"),
  ("kn", "044b04b0"),
  ("ms", "043e04e4"),
  ("ml", "044c04b0"),
  ("mr", "044e04b0"),
  ("or", "044804b0"),
  ("ta", "044904b0"),
  ("te", "044a04b0"),
  ("am", "045e04b0"),
  ("sw", "044104e4"),
  ("af", "043604e4"),
  ("eu", "042d04e4"),
  ("fr-CA", "0c0c04e4"),
  ("gl", "045604e4"),
  ("zu", "043504b0"),
  ("fake-bidi", "040d04e7")]

/-- Embedding of `_LANGUAGE_DIRECTIVE_PAIR` (rc.py lines 149-220), in
source order. -/
def _LANGUAGE_DIRECTIVE_PAIR : List (String × String) := [
  ("neutral", "LANG_NEUTRAL, SUBLANG_NEUTRAL"),
  ("userdefault", "LANG_NEUTRAL, SUBLANG_DEFAULT"),
  ("ar", "LANG_ARABIC, SUBLANG_DEFAULT"),
  ("fi", "LANG_FINNISH, SUBLANG_DEFAULT"),
  ("ko", "LANG_KOREAN, SUBLANG_KOREAN"),
  ("es", "LANG_SPANISH, SUBLANG_SPANISH_MODERN"),
  ("bg", "LANG_BULGARIAN, SUBLANG_DEFAULT"),
  ("fil", "100, SUBLANG_DEFAULT"),
  ("fr", "LANG_FRENCH, SUBLANG_FRENCH"),
  ("lv", "LANG_LATVIAN, SUBLANG_DEFAULT"),
  ("sv", "LANG_SWEDISH, SUBLANG_SWEDISH"),
  ("ca", "LANG_CATALAN, SUBLANG_DEFAULT"),
  ("de", "LANG_GERMAN, SUBLANG_GERMAN"),
  ("lt", "LANG_LITHUANIAN, SUBLANG_LITHUANIAN"),
  ("tl", "LANG_NEUTRAL, SUBLANG_DEFAULT"),
  ("zh-CN", "LANG_CHINESE, SUBLANG_CHINESE_SIMPLIFIED"),
  ("zh-TW", "LANG_CHINESE, SUBLANG_CHINESE_TRADITIONAL"),
  ("zh-HK", "LANG_CHINESE, SUBLANG_CHINESE_HONGKONG"),
  ("el", "LANG_GREEK, SUBLANG_DEFAULT"),
  ("no", "LANG_NORWEGIAN, SUBLANG_DEFAULT"),
  ("th", "LANG_THAI, SUBLANG_DEFAULT"),
  ("he", "LANG_HEBREW, SUBLANG_DEFAULT"),
  ("iw", "LANG_HEBREW, SUBLANG_DEFAULT"),
  ("pl", "LANG_POLISH, SUBLANG_DEFAULT"),
  ("tr", "LANG_TURKISH, SUBLANG_DEFAULT"),
  ("hr", "LANG_CROATIAN, SUBLANG_DEFAULT"),
  ("hi", "LANG_HINDI, SUBLANG_DEFAULT"),
  ("pt-PT", "LANG_PORTUGUESE, SUBLANG_PORTUGUESE"),
  ("pt-BR", "LANG_PORTUGUESE, SUBLANG_DEFAULT"),
  ("uk", "LANG_UKRAINIAN, SUBLANG_DEFAULT"),
  ("cs", "LANG_CZECH, SUBLANG_DEFAULT"),
  ("hu", "LANG_HUNGARIAN, SUBLANG_DEFAULT"),
  ("ro", "LANG_ROMANIAN, SUBLANG_DEFAULT"),
  ("ur", "LANG_URDU, SUBLANG_DEFAULT"),
  ("da", "LANG_DANISH, SUBLANG_DEFAULT"),
  ("is", "LANG_ICELANDIC, SUBLANG_DEFAULT"),
  ("ru", "LANG_RUSSIAN, SUBLANG_DEFAULT"),
  ("vi", "LANG_VIETNAMESE, SUBLANG_DEFAULT"),
  ("nl", "LANG_DUTCH, SUBLANG_DEFAULT"),
  ("id", "LANG_INDONESIAN, SUBLANG_DEFAULT"),
  ("sr", "LANG_SERBIAN, SUBLANG_SERBIAN_CYRILLIC"),
  ("en-GB", "LANG_ENGLISH, SUBLANG_ENGLISH_UK"),
  ("it", "LANG_ITALIAN, SUBLANG_DEFAULT"),
  ("sk", "LANG_SLOVAK, SUBLANG_DEFAULT"),
  ("et", "LANG_ESTONIAN, SUBLANG_DEFAULT"),
  ("ja", "LANG_JAPANESE, SUBLANG_DEFAULT"),
  ("sl", "LANG_SLOVENIAN, SUBLANG_DEFAULT"),
  ("en", "LANG_ENGLISH, SUBLANG_ENGLISH_US"),
  ("es-419", "LANG_SPANISH, SUBLANG_SPANISH_MEXICAN"),
  ("bn", "LANG_BENGALI, SUBLANG_DEFAULT"),
  ("fa", "LANG_PERSIAN, SUBLANG_DEFAULT"),
  ("gu", "LANG_GUJARATI, SUBLANG_DEFAULT"),
  ("kn", "LANG_KANNADA, SUBLANG_DEFAULT"),
  ("ms", "LANG_MALAY, SUBLANG_DEFAULT"),
  ("ml", "LANG_MALAYALAM, SUBLANG_DEFAULT"),
  ("mr", "LANG_MARATHI, SUBLANG_DEFAULT"),
  ("or", "LANG_ORIYA, SUBLANG_DEFAULT"),
  ("ta", "LANG_TAMIL, SUBLANG_DEFAULT"),
  ("te", "LANG_TELUGU, SUBLANG_DEFAULT"),
  ("am", "LANG_AMHARIC, SUBLANG_DEFAULT"),
  ("sw", "LANG_SWAHILI, SUBLANG_DEFAULT"),
  ("af", "LANG_AFRIKAANS, SUBLANG_DEFAULT"),
  ("eu", "LANG_BASQUE, SUBLANG_DEFAULT"),
  ("fr-CA", "LANG_FRENCH, SUBLANG_FRENCH_CANADIAN"),
  ("gl", "LANG_GALICIAN, SUBLANG_DEFAULT"),
  ("zu", "LANG_ZULU, SUBLANG_DEFAULT"),
  ("fake-bidi", "LANG_HEBREW, SUBLANG_DEFAULT")]

/-- First `n` characters of a string: embedding of Python `s[0:n]`. -/
def strTake (s : String) (n : Nat) : String := ⟨s.data.take n⟩

/-- Characters of a string from index `n` on: embedding of Python `s[n:]`. -/
def strDrop (s : String) (n : Nat) : String := ⟨s.data.drop n⟩

/-- Value of one lowercase/uppercase hexadecimal digit (0 for other
characters; the table values contain only valid digits). -/
def hexDigitVal (c : Char) : Nat :=
  if '0' ≤ c ∧ c ≤ '9' then c.toNat - '0'.toNat
  else if 'a' ≤ c ∧ c ≤ 'f' then c.toNat - 'a'.toNat + 10
  else if 'A' ≤ c ∧ c ≤ 'F' then c.toNat - 'A'.toNat + 10
  else 0

/-- `true` iff `c` is a hexadecimal digit. -/
def isHexDigit (c : Char) : Bool :=
  ('0' ≤ c && c ≤ '9') || ('a' ≤ c && c ≤ 'f') || ('A' ≤ c && c ≤ 'F')

/-- Base-16 parse of a hex-digit string: embedding of Python
`int(s, 16)` for strings of hexadecimal digits (the only inputs the
source feeds it). -/
def hexToNat (s : String) : Nat :=
  s.data.foldl (fun acc c => 16 * acc + hexDigitVal c) 0

/-- Embedding of `GetLangCharsetPair` (rc.py lines 222-227): dictionary
lookup with `''` on a miss (the Python code also prints a non-fatal
warning, a side effect with no influence on the returned value). -/
def GetLangCharsetPair (language : String) : String :=
  match _LANGUAGE_CHARSET_PAIR.lookup language with
  | some v => v
  | none => ""

/-- Embedding of `GetLangDirectivePair` (rc.py lines 229-234): dictionary
lookup with the literal `'unknown language: see tools/grit/format/rc.py'`
on a miss (plus a non-fatal printed warning). -/
def GetLangDirectivePair (language : String) : String :=
  match _LANGUAGE_DIRECTIVE_PAIR.lookup language with
  | some v => v
  | none => "unknown language: see tools/grit/format/rc.py"

/-- Embedding of `GetLangIdHex` (rc.py lines 236-243): `'0x'` followed by
the first four hex digits of the charset pair, `''` on a miss. -/
def GetLangIdHex (language : String) : String :=
  match _LANGUAGE_CHARSET_PAIR.lookup language with
  | some langcharset => "0x" ++ strTake langcharset 4
  | none => ""

/-- Embedding of `GetCharsetIdDecimal` (rc.py lines 246-253): the decimal
rendering of the base-16 parse of the charset pair from index 4 on, `''`
on a miss. -/
def GetCharsetIdDecimal (language : String) : String :=
  match _LANGUAGE_CHARSET_PAIR.lookup language with
  | some langcharset => Nat.repr (hexToNat (strDrop langcharset 4))
  | none => ""

/-- `true` iff `c` is an ASCII lowercase letter, the character class
`[a-z]` of the regex in `GetUnifiedLangCode`. -/
def isLowerAZ (c : Char) : Bool := 'a' ≤ c && c ≤ 'z'

/-- Embedding of `re.compile('([a-z]{1,2})_([a-z]{1,2})').match(language)`
being non-None (rc.py lines 257-258): an anchored prefix match of one or
two lowercase letters, an underscore, and at least one lowercase letter
(the second group needs only one character to succeed on a prefix). -/
def matchLangRegion (l : List Char) : Bool :=
  match l with
  | a :: b :: rest =>
    if b = '_' then
      match rest with
      | c :: _ => isLowerAZ a && isLowerAZ c
      | [] => false
    else
      match rest with
      | '_' :: d :: _ => isLowerAZ a && isLowerAZ b && isLowerAZ d
      | _ => false
  | _ => false

/-- Embedding of `GetUnifiedLangCode` (rc.py lines 256-262): when the
regex matches, the text before the first underscore, a hyphen, and the
uppercased text after it (Python `str.upper`, modelled on ASCII by
`Char.toUpper`); otherwise the language code unchanged. -/
def GetUnifiedLangCode (language : String) : String :=
  if matchLangRegion language.data then
    let pre := language.data.takeWhile (fun c => c != '_')
    let post := (language.data.dropWhile (fun c => c != '_')).drop 1
    ⟨pre⟩ ++ "-" ++ ⟨post.map Char.toUpper⟩
  else language

/-- Embedding of `Substituter.AddSubstitutions` for our purposes: the
substituter's mapping is an association list extended by the new pairs. -/
def AddSubstitutions (substituter subs : List (String × String)) :
    List (String × String) :=
  substituter ++ subs

/-- Embedding of `RcSubstitutions` (rc.py lines 265-271): adds the three
language-based placeholders, each computed from the unified language
code. -/
def RcSubstitutions (substituter : List (String × String)) (lang : String) :
    List (String × String) :=
  let unified_lang_code := GetUnifiedLangCode lang
  AddSubstitutions substituter [
    ("GRITVERLANGCHARSETHEX", GetLangCharsetPair unified_lang_code),
    ("GRITVERLANGID", GetLangIdHex unified_lang_code),
    ("GRITVERCHARSETID", GetCharsetIdDecimal unified_lang_code)]

theorem lookup_eq_none_of_not_mem_keys :
    ∀ (l : List (String × String)) (c : String),
      c ∉ l.map Prod.fst → List.lookup c l = none := by
  intro l c h
  induction l with
  | nil => rfl
  | cons p rest ih =>
    simp only [List.map_cons, List.mem_cons] at h
    push_neg at h
    have hb : (c == p.1) = false := beq_eq_false_iff_ne.mpr h.1
    simp [List.lookup, hb, ih h.2]

/-- C4 as stated is false at the directive lookup: for a code absent from
the tables, `GetLangDirectivePair` returns the longer literal
`'unknown language: see tools/grit/format/rc.py'`, not the literal string
`'unknown language'`. -/
theorem c4_counterexample :
    GetLangDirectivePair "xx" = "unknown language: see tools/grit/format/rc.py"
    ∧ GetLangDirectivePair "xx" ≠ "unknown language" := by
  constructor
  · rfl
  · decide

/-- C4 amended: the locale-table lookups are pure total functions (they
are Lean functions of the code alone, so two calls with the same code
return identical results by definition); for any code absent from the
tables no exception path exists and each lookup returns its sentinel: the
empty string for the charset-pair, lang-id-hex and charset-id-decimal
lookups, and the literal
`'unknown language: see tools/grit/format/rc.py'` (a string beginning
with `'unknown language'`) for the directive; the pass is not aborted
(the Python code only prints a warning). -/
theorem c4_lookup_miss_sentinels (code : String)
    (h1 : code ∉ _LANGUAGE_CHARSET_PAIR.map Prod.fst)
    (h2 : code ∉ _LANGUAGE_DIRECTIVE_PAIR.map Prod.fst) :
    GetLangCharsetPair code = ""
    ∧ GetLangIdHex code = ""
    ∧ GetCharsetIdDecimal code = ""
    ∧ GetLangDirectivePair code
        = "unknown language: see tools/grit/format/rc.py" := by
  have e1 := lookup_eq_none_of_not_mem_keys _ code h1
  have e2 := lookup_eq_none_of_not_mem_keys _ code h2
  refine ⟨?_, ?_, ?_, ?_⟩ <;>
    simp [GetLangCharsetPair, GetLangIdHex, GetCharsetIdDecimal,
          GetLangDirectivePair, e1, e2]

theorem c4_lookup_miss_sentinels_witness :
    GetLangCharsetPair "xx" = ""
    ∧ GetLangIdHex "xx" = ""
    ∧ GetCharsetIdDecimal "xx" = ""
    ∧ GetLangDirectivePair "xx"
        = "unknown language: see tools/grit/format/rc.py" :=
  c4_lookup_miss_sentinels "xx" (by decide) (by decide)

theorem lower_ne_underscore {c : Char} (h : isLowerAZ c = true) : c ≠ '_' := by
  intro he
  subst he
  exact absurd h (by decide)

theorem matchLangRegion_one (a r0 : Char) (rt : List Char)
    (ha : isLowerAZ a = true) (hr : isLowerAZ r0 = true) :
    matchLangRegion (a :: '_' :: r0 :: rt) = true := by
  simp [matchLangRegion, ha, hr]

theorem matchLangRegion_two (a b r0 : Char) (rt : List Char)
    (ha : isLowerAZ a = true) (hb : isLowerAZ b = true)
    (hr : isLowerAZ r0 = true) :
    matchLangRegion (a :: b :: '_' :: r0 :: rt) = true := by
  simp [matchLangRegion, lower_ne_underscore hb, ha, hb, hr]

/-- C5 as stated is false: a code of the form `xx_YY` whose region part
is already uppercase does not match the lowercase-only regex, so it is
returned unchanged rather than normalized: `'en_US'` stays `'en_US'`,
and the substitution engine consequently populates its placeholders from
the unnormalized code (here a table miss yielding the empty sentinel
rather than `'0x0809'` for `'en_GB'`). -/
theorem c5_counterexample :
    GetUnifiedLangCode "en_US" = "en_US"
    ∧ GetUnifiedLangCode "en_US" ≠ "en-US"
    ∧ ("GRITVERLANGID", "") ∈ RcSubstitutions [] "en_GB"
    ∧ GetLangIdHex "en-GB" = "0x0809" := by
  refine ⟨rfl, by decide, ?_, rfl⟩
  decide

/-- C5 amended: for every language code whose text begins with one or two
ASCII lowercase letters, an underscore, and an ASCII lowercase letter
(the anchored prefix accepted by the regex
`([a-z]{1,2})_([a-z]{1,2})`), the lookup/substitution path normalizes it
to the hyphenated form: the part before the first underscore, a hyphen,
and the rest uppercased; codes not of this shape (e.g. with an uppercase
region part) pass through unchanged.  The substitution engine populates
its three placeholders using this unified code. -/
theorem c5_normalized_lookup_path :
    (∀ (lp : List Char) (r0 : Char) (rt : List Char),
      1 ≤ lp.length → lp.length ≤ 2 → (∀ c ∈ lp, isLowerAZ c = true) →
      isLowerAZ r0 = true →
      GetUnifiedLangCode ⟨lp ++ '_' :: r0 :: rt⟩
        = ⟨lp⟩ ++ "-" ++ ⟨(r0 :: rt).map Char.toUpper⟩)
    ∧ (∀ (substituter : List (String × String)) (lang : String),
        ("GRITVERLANGCHARSETHEX", GetLangCharsetPair (GetUnifiedLangCode lang))
            ∈ RcSubstitutions substituter lang
        ∧ ("GRITVERLANGID", GetLangIdHex (GetUnifiedLangCode lang))
            ∈ RcSubstitutions substituter lang
        ∧ ("GRITVERCHARSETID", GetCharsetIdDecimal (GetUnifiedLangCode lang))
            ∈ RcSubstitutions substituter lang) := by
  constructor
  · intro lp r0 rt h1 h2 h3 hr
    match lp with
    | [a] =>
      have ha := h3 a (by simp)
      have ha' : (a != '_') = true := bne_iff_ne.mpr (lower_ne_underscore ha)
      simp [GetUnifiedLangCode, matchLangRegion_one a r0 rt ha hr,
            List.takeWhile, List.dropWhile, ha']
    | [a, b] =>
      have ha := h3 a (by simp)
      have hb := h3 b (by simp)
      have ha' : (a != '_') = true := bne_iff_ne.mpr (lower_ne_underscore ha)
      have hb' : (b != '_') = true := bne_iff_ne.mpr (lower_ne_underscore hb)
      simp [GetUnifiedLangCode, matchLangRegion_two a b r0 rt ha hb hr,
            List.takeWhile, List.dropWhile, ha', hb']
    | _ :: _ :: _ :: _ => simp at h2
  · intro substituter lang
    refine ⟨?_, ?_, ?_⟩ <;> simp [RcSubstitutions, AddSubstitutions]

theorem c5_normalized_lookup_path_witness :
    GetUnifiedLangCode ⟨['e', 'n'] ++ '_' :: 'u' :: ['s']⟩
      = ⟨['e', 'n']⟩ ++ "-" ++ ⟨('u' :: ['s']).map Char.toUpper⟩ :=
  c5_normalized_lookup_path.1 ['e', 'n'] 'u' ['s']
    (by decide) (by decide) (by decide) (by decide)

/-- C7 as stated is false: the derived language-id lookup is the first 4
hex digits *prefixed by `'0x'`*, so it does not equal the first 4 hex
digits themselves: at code `'en'` (pair `'040904b0'`) it returns
`'0x0409'`, not `'0409'`. -/
theorem c7_counterexample :
    GetLangIdHex "en" = "0x0409"
    ∧ GetLangIdHex "en" ≠ strTake "040904b0" 4 := by
  constructor
  · rfl
  · decide

/-- C7 amended: for every language code present in the charset-pair table
(whose value is an 8-hex-digit string), the derived lang-id lookup equals
`'0x'` followed by the first 4 hex digits of the pair, and the derived
charset-id lookup equals the decimal rendering of the base-16 parse of
the trailing 4 hex digits. -/
theorem c7_derived_lookups :
    ∀ p ∈ _LANGUAGE_CHARSET_PAIR,
      (p.2 : String).data.length = 8
      ∧ (p.2 : String).data.all isHexDigit = true
      ∧ GetLangIdHex p.1 = "0x" ++ strTake p.2 4
      ∧ GetCharsetIdDecimal p.1 = Nat.repr (hexToNat (strDrop p.2 4)) := by
  decide

theorem c7_derived_lookups_witness :
    ("en", "040904b0") ∈ _LANGUAGE_CHARSET_PAIR
    ∧ (("040904b0" : String).data.length = 8
       ∧ ("040904b0" : String).data.all isHexDigit = true
       ∧ GetLangIdHex "en" = "0x" ++ strTake "040904b0" 4
       ∧ GetCharsetIdDecimal "en" = Nat.repr (hexToNat (strDrop "040904b0" 4))) :=
  ⟨by decide, c7_derived_lookups ("en", "040904b0") (by decide)⟩

/-! ## Top-level preamble (rc.py lines 274-316) -/

/-- Embedding of Python `s.replace('\\', '\\\\')`: every backslash is
doubled (escaping for the RC format). -/
def escBackslashChars : List Char → List Char
  | [] => []
  | c :: rest =>
    if c = '\\' then '\\' :: '\\' :: escBackslashChars rest
    else c :: escBackslashChars rest

/-- String wrapper for `escBackslashChars`. -/
def escBackslash (s : String) : String := ⟨escBackslashChars s.data⟩

/-- One entry of `item.GetRoot().GetOutputFiles()`: the attributes the
`TopLevel.Format` loop reads. -/
structure OutputEntry where
  type : String
  lang : String
  language_section : String
  filename : String

/-- One iteration of the `for output in item.GetRoot().GetOutputFiles()`
loop of `TopLevel.Format` (rc.py lines 283-299).  `rel` abstracts the
external path collaborators
`util.MakeRelativePath(output_dir, os.path.abspath(·))`.  The header
assignment happens before the `continue` on a language mismatch, so it
applies to every `rc_header` entry regardless of language; the directive
assignment only applies to entries whose `lang` equals the pass
language. -/
def topLevelScanStep (rel : String → String) (lang : String)
    (acc : String × String) (output : OutputEntry) : String × String :=
  let resource_header :=
    if output.type == "rc_header" then rel output.filename else acc.1
  if output.lang != lang then (resource_header, acc.2)
  else if output.language_section == "" then (resource_header, "")
  else if output.language_section == "neutral" then
    (resource_header, "LANGUAGE LANG_NEUTRAL, SUBLANG_NEUTRAL")
  else if output.language_section == "lang" then
    (resource_header, "LANGUAGE " ++ GetLangDirectivePair lang)
  else (resource_header, acc.2)

/-- The whole scan loop of `TopLevel.Format`, started from the fallback
`'resource.h'` and an empty language directive. -/
def topLevelScan (rel : String → String) (lang : String)
    (outputs : List OutputEntry) : String × String :=
  outputs.foldl (topLevelScanStep rel lang) ("resource.h", "")

/-- The resolved `#include` header path of the preamble:
`resource_header.replace('\\', '\\\\')` after the scan (rc.py line 300). -/
def resourceHeader (rel : String → String) (lang : String)
    (outputs : List OutputEntry) : String :=
  escBackslash (topLevelScan rel lang outputs).1

/-- Embedding of `TopLevel.Format` (rc.py lines 276-315): the fixed
banner with the current year, the resolved header include, the
`IDC_STATIC` guard block, and the language directive chosen by the
scan. -/
def topLevelFormat (year : Nat) (rel : String → String) (lang : String)
    (outputs : List OutputEntry) : String :=
  let scan := topLevelScan rel lang outputs
  "// Copyright (c) Google Inc. " ++ Nat.repr year
    ++ "\n// All rights reserved.\n// This file is automatically generated by GRIT.  Do not edit.\n\n#include \""
    ++ escBackslash scan.1
    ++ "\"\n#include <winresrc.h>\n#ifdef IDC_STATIC\n#undef IDC_STATIC\n#endif\n#define IDC_STATIC (-1)\n\n"
    ++ scan.2 ++ "\n\n\n"

/-- The header resolution as claim C3 words it, for comparison: the last
output entry of kind `rc_header` *matching the current pass language*,
falling back to `'resource.h'` when no such entry exists. -/
def resourceHeaderClaimed (rel : String → String) (lang : String)
    (outputs : List OutputEntry) : String :=
  escBackslash
    (match outputs.reverse.find?
        (fun o => o.type == "rc_header" && o.lang == lang) with
     | some o => rel o.filename
     | none => "resource.h")

theorem topLevelScanStep_fst (rel : String → String) (lang : String)
    (acc : String × String) (output : OutputEntry) :
    (topLevelScanStep rel lang acc output).1
      = if output.type == "rc_header" then rel output.filename else acc.1 := by
  simp only [topLevelScanStep]
  split <;> [rfl; (split <;> [rfl; (split <;> [rfl; (split <;> rfl)])])]

theorem topLevelScan_foldl_fst (rel : String → String) (lang : String) :
    ∀ (outputs : List OutputEntry) (acc : String × String),
      (outputs.foldl (topLevelScanStep rel lang) acc).1
        = match outputs.reverse.find? (fun o => o.type == "rc_header") with
          | some o => rel o.filename
          | none => acc.1 := by
  intro outputs
  induction outputs with
  | nil => intro acc; rfl
  | cons o rest ih =>
    intro acc
    rw [List.foldl_cons, ih, List.reverse_cons, List.find?_append]
    cases hfind : rest.reverse.find? (fun o => o.type == "rc_header") with
    | some x => simp [Option.or]
    | none =>
      simp only [Option.or, List.find?]
      cases hp : (o.type == "rc_header") with
      | true => simp [topLevelScanStep_fst, hp]
      | false => simp [topLevelScanStep_fst, hp]

/-- C3 as stated is false: the header scan does not require the
`rc_header` entry to match the current pass language (the language check
in the loop happens after the header assignment and only guards the
directive logic).  With a single `rc_header` output registered for
language `'fr'` and pass language `'en'`, the claim's resolution falls
back to `'resource.h'`, but the code resolves the header to that entry's
file. -/
theorem c3_counterexample :
    resourceHeader (fun s => s) "en"
        [⟨"rc_header", "fr", "neutral", "foo.h"⟩] = "foo.h"
    ∧ resourceHeaderClaimed (fun s => s) "en"
        [⟨"rc_header", "fr", "neutral", "foo.h"⟩] = "resource.h"
    ∧ ("foo.h" : String) ≠ "resource.h" := by
  refine ⟨rfl, rfl, by decide⟩

/-- C3 amended: the preamble's `#include` header path is resolved by
scanning the root's registered output list for entries of kind
`rc_header` *regardless of language* (the last such entry wins), falls
back to the literal `'resource.h'` when no `rc_header` entry exists at
all, and is otherwise expressed relative to the destination directory
(the abstract `rel` collaborator) with backslashes doubled for embedding
in the quoted include line. -/
theorem c3_header_resolution (rel : String → String) (lang : String)
    (outputs : List OutputEntry) :
    resourceHeader rel lang outputs
      = escBackslash
          (match outputs.reverse.find? (fun o => o.type == "rc_header") with
           | some o => rel o.filename
           | none => "resource.h")
    ∧ topLevelFormat 2012 rel lang outputs
      = "// Copyright (c) Google Inc. 2012\n// All rights reserved.\n// This file is automatically generated by GRIT.  Do not edit.\n\n#include \""
        ++ resourceHeader rel lang outputs
        ++ "\"\n#include <winresrc.h>\n#ifdef IDC_STATIC\n#undef IDC_STATIC\n#endif\n#define IDC_STATIC (-1)\n\n"
        ++ (topLevelScan rel lang outputs).2 ++ "\n\n\n" := by
  constructor
  · unfold resourceHeader topLevelScan
    rw [topLevelScan_foldl_fst]
  · rfl

/-! ## Include node (grit/node/include.py) -/

/-- The two cache fields of `IncludeNode` (include.py lines 20-28), the
only mutable state of the core: the flattened-bytes cache and the last
filename flattened to.  Both start as Python `None`. -/
structure IncludeState where
  flattened_data : Option String
  last_flat_filename : Option String
deriving DecidableEq

/-- Python falsiness of the `_flattened_data` field as tested by
`if not self._flattened_data:`: `None` and the empty string are falsy. -/
def isFalsyData : Option String → Bool
  | none => true
  | some d => d == ""

/-- Embedding of `IncludeNode._GetFlattenedData` (include.py lines
33-39).  `inliner` abstracts the external collaborator
`grit.format.html_inline.InlineToString(filename, self,
allow_external_script=...)`; `inputPath` is the resolved
`self.ToRealPath(self.GetInputPath())`.  Returns the flattened data, the
new cache state, and the number of inliner invocations performed (0 or
1). -/
def getFlattenedData (inliner : String → Bool → String) (inputPath : String)
    (allow_external_script : Bool) (st : IncludeState) :
    String × IncludeState × Nat :=
  if isFalsyData st.flattened_data then
    let d := inliner inputPath allow_external_script
    (d, { st with flattened_data := some d }, 1)
  else
    (st.flattened_data.getD "", st, 0)

/-- Embedding of Python `os.path.join(dir, name)` for a directory without
a trailing separator (POSIX). -/
def joinPath (a b : String) : String := a ++ "/" ++ b

/-- Embedding of Python `os.path.basename` (POSIX): the part after the
last `/`. -/
def basename (s : String) : String :=
  ⟨(s.data.reverse.takeWhile (fun c => c != '/')).reverse⟩

/-- Embedding of `IncludeNode.Process` (include.py lines 96-110).  The
destination is `os.path.join(output_dir, name + '_' +
basename(filename))`; when it equals the recorded
`_last_flat_filename` the method returns early — a bare Python `return`,
i.e. `None`.  Otherwise it writes the flattened data to the destination,
records the destination, and returns the destination's basename.
Returns (return value, new state, list of filesystem writes as
(path, contents) pairs). -/
def process (inliner : String → Bool → String)
    (name inputPath output_dir : String) (st : IncludeState) :
    Option String × IncludeState × List (String × String) :=
  let filename := inputPath
  let flat_filename := joinPath output_dir (name ++ "_" ++ basename filename)
  if st.last_flat_filename == some flat_filename then
    (none, st, [])
  else
    let r := getFlattenedData inliner inputPath false st
    (some (basename flat_filename),
     { flattened_data := r.2.1.flattened_data,
       last_flat_filename := some flat_filename },
     [(flat_filename, r.1)])

/-- C2: flattening the same include node twice with the same output
directory performs exactly one filesystem write and the second call is a
no-op — but, contrary to the claim (and to the method's own docstring
"the name of the new file is returned"), the second call returns Python
`None` via its bare `return`, not the filename returned by the first
call.  Evaluated at a concrete node (name `NAME`, source
`dir/file.txt`, output directory `out`). -/
theorem c2_process_second_call_returns_none :
    (process (fun _ _ => "DATA") "NAME" "dir/file.txt" "out" ⟨none, none⟩).1
        = some "NAME_file.txt"
    ∧ (process (fun _ _ => "DATA") "NAME" "dir/file.txt" "out" ⟨none, none⟩).2.2
        = [("out/NAME_file.txt", "DATA")]
    ∧ (process (fun _ _ => "DATA") "NAME" "dir/file.txt" "out"
        (process (fun _ _ => "DATA") "NAME" "dir/file.txt" "out"
          ⟨none, none⟩).2.1).1 = none
    ∧ (process (fun _ _ => "DATA") "NAME" "dir/file.txt" "out"
        (process (fun _ _ => "DATA") "NAME" "dir/file.txt" "out"
          ⟨none, none⟩).2.1).2.2 = [] :=
  ⟨rfl, rfl, rfl, rfl⟩

/-- C9 as stated is false: the flattened-bytes cache is keyed on Python
truthiness, not on "has it been computed at all".  When the inliner
produces empty bytes, the computed value is stored but tests falsy, so a
subsequent call re-invokes the inliner (invocation count 1, not 0) —
and, with a different `allowExternalScript` argument, can even return
different bytes. -/
theorem c9_counterexample :
    (getFlattenedData (fun _ allow => if allow then "X" else "")
        "f" false ⟨none, none⟩).2.2 = 1
    ∧ (getFlattenedData (fun _ allow => if allow then "X" else "")
        "f" false ⟨none, none⟩).1 = ""
    ∧ (getFlattenedData (fun _ allow => if allow then "X" else "") "f" true
        (getFlattenedData (fun _ allow => if allow then "X" else "")
          "f" false ⟨none, none⟩).2.1).2.2 = 1
    ∧ (getFlattenedData (fun _ allow => if allow then "X" else "") "f" true
        (getFlattenedData (fun _ allow => if allow then "X" else "")
          "f" false ⟨none, none⟩).2.1).1 = "X" :=
  ⟨rfl, rfl, rfl, rfl⟩

/-- C9 amended: the flattened-bytes accessor is memoized on whether a
*non-empty* result has been computed: once the cache holds non-empty
bytes, every call returns exactly those cached bytes with an unchanged
state and without invoking the HTML inliner, regardless of the
`allowExternalScript` argument and of any flatten destination path (the
path cache plays no part); a computed result is always stored in the
cache; an empty computed result is treated as absent (Python falsiness)
and a later call re-invokes the inliner.  Nothing but node destruction
resets the state. -/
theorem c9_flattened_cache :
    (∀ (inliner : String → Bool → String) (inputPath : String)
       (allow : Bool) (st : IncludeState) (d : String),
       st.flattened_data = some d → d ≠ "" →
       getFlattenedData inliner inputPath allow st = (d, st, 0))
    ∧ (∀ (inliner : String → Bool → String) (inputPath : String)
       (allow : Bool) (st : IncludeState),
       (getFlattenedData inliner inputPath allow st).2.1.flattened_data
         = some (getFlattenedData inliner inputPath allow st).1) := by
  constructor
  · intro inliner inputPath allow st d h1 h2
    have hb : (d == "") = false := beq_eq_false_iff_ne.mpr h2
    simp [getFlattenedData, isFalsyData, h1, hb]
  · intro inliner inputPath allow st
    by_cases h : isFalsyData st.flattened_data = true
    · simp [getFlattenedData, h]
    · simp only [Bool.not_eq_true] at h
      rcases hd : st.flattened_data with _ | d
      · simp [isFalsyData, hd] at h
      · have : (d == "") = false := by simpa [isFalsyData, hd] using h
        simp [getFlattenedData, isFalsyData, hd, this]

theorem c9_flattened_cache_witness :
    getFlattenedData (fun _ _ => "Z") "f" true ⟨some "D", none⟩
      = ("D", ⟨some "D", none⟩, 0) :=
  c9_flattened_cache.1 (fun _ _ => "Z") "f" true ⟨some "D", none⟩ "D"
    rfl (by decide)

/-- The attributes of an include node that `GetDataPackPair` reads:
`name` (its textual identifier, `GetTextualIds()[0]`), and the
string-valued boolean flags `flattenhtml` and `allowexternalscript`. -/
structure IncludeAttrs where
  name : String
  flattenhtml : String
  allowexternalscript : String

/-- Embedding of `IncludeNode.GetDataPackPair` (include.py lines 78-94).
`id_map` embeds the externally maintained id table
(`rc_header.Item.tids_`); the Python `KeyError` raised on a missing
textual identifier is the `none` result.  `readFile` abstracts
`util.ReadFile(filename, util.BINARY)`.  `lang` and `encoding` are
accepted and ignored, as in the source. -/
def getDataPackPair (id_map : List (String × Nat))
    (inliner : String → Bool → String) (readFile : String → String)
    (attrs : IncludeAttrs) (inputPath : String) (st : IncludeState)
    (_lang _encoding : String) : Option ((Nat × String) × IncludeState) :=
  match id_map.lookup attrs.name with
  | none => none
  | some id =>
    if attrs.flattenhtml == "true" then
      let allow_external_script := attrs.allowexternalscript == "true"
      let r := getFlattenedData inliner inputPath allow_external_script st
      some ((id, r.1), r.2.1)
    else
      some ((id, readFile inputPath), st)

/-- C8: `GetDataPackPair` fails with a lookup error iff the node's
textual identifier has no entry in the id table; otherwise it returns
the pair (id, bytes) where the bytes come from the flattened-bytes cache
when `flattenhtml` is `'true'` and from a raw binary read of the
resolved source file otherwise; and the `encoding` parameter has no
effect on the result. -/
theorem c8_data_pack_pair :
    (∀ id_map inliner readFile attrs inputPath st lang encoding,
       getDataPackPair id_map inliner readFile attrs inputPath st
           lang encoding = none
         ↔ id_map.lookup attrs.name = none)
    ∧ (∀ id_map inliner readFile attrs inputPath st lang e1 e2,
       getDataPackPair id_map inliner readFile attrs inputPath st lang e1
         = getDataPackPair id_map inliner readFile attrs inputPath st lang e2)
    ∧ (∀ id_map inliner readFile attrs inputPath st lang encoding i,
       id_map.lookup attrs.name = some i →
       attrs.flattenhtml = "true" →
       getDataPackPair id_map inliner readFile attrs inputPath st
           lang encoding
         = some ((i, (getFlattenedData inliner inputPath
                       (attrs.allowexternalscript == "true") st).1),
                 (getFlattenedData inliner inputPath
                   (attrs.allowexternalscript == "true") st).2.1))
    ∧ (∀ id_map inliner readFile attrs inputPath st lang encoding i,
       id_map.lookup attrs.name = some i →
       attrs.flattenhtml ≠ "true" →
       getDataPackPair id_map inliner readFile attrs inputPath st
           lang encoding
         = some ((i, readFile inputPath), st)) := by
  refine ⟨?_, ?_, ?_, ?_⟩
  · intro id_map inliner readFile attrs inputPath st lang encoding
    unfold getDataPackPair
    cases id_map.lookup attrs.name <;> simp
    split <;> simp
  · intro id_map inliner readFile attrs inputPath st lang e1 e2
    rfl
  · intro id_map inliner readFile attrs inputPath st lang encoding i h1 h2
    have hb : (attrs.flattenhtml == "true") = true := beq_iff_eq.mpr h2
    simp [getDataPackPair, h1, hb]
  · intro id_map inliner readFile attrs inputPath st lang encoding i h1 h2
    have hb : (attrs.flattenhtml == "true") = false := beq_eq_false_iff_ne.mpr h2
    simp [getDataPackPair, h1, hb]

theorem c8_data_pack_pair_witness :
    getDataPackPair [("A", 5)] (fun _ _ => "B") (fun _ => "R")
        ⟨"A", "true", "false"⟩ "p" ⟨none, none⟩ "en" "utf-8"
      = some ((5, (getFlattenedData (fun _ _ => "B") "p"
                    (("false" : String) == "true") ⟨none, none⟩).1),
              (getFlattenedData (fun _ _ => "B") "p"
                (("false" : String) == "true") ⟨none, none⟩).2.1)
    ∧ getDataPackPair [("A", 5)] (fun _ _ => "B") (fun _ => "R")
        ⟨"A", "false", "false"⟩ "p" ⟨none, none⟩ "en" "utf-8"
      = some ((5, "R"), ⟨none, none⟩) :=
  ⟨c8_data_pack_pair.2.2.1 [("A", 5)] (fun _ _ => "B") (fun _ => "R")
      ⟨"A", "true", "false"⟩ "p" ⟨none, none⟩ "en" "utf-8" 5 rfl rfl,
   c8_data_pack_pair.2.2.2 [("A", 5)] (fun _ _ => "B") (fun _ => "R")
      ⟨"A", "false", "false"⟩ "p" ⟨none, none⟩ "en" "utf-8" 5 rfl
      (by decide)⟩

/-! ## RC include formatter (rc.py lines 380-423, include.py lines 54-62) -/

/-- The constructor state of `RcInclude` (rc.py lines 383-395). -/
structure RcIncludeFormatter where
  type_ : String
  filenameWithoutPath : Bool
  relative_path_ : Bool
  flatten_html : Bool

/-- Embedding of Python `str.upper` on ASCII. -/
def strUpper (s : String) : String := ⟨s.data.map Char.toUpper⟩

/-- Embedding of the `rc_all`/`rc_translateable`/`rc_nontranslateable`
branch of `IncludeNode.ItemFormatter` (include.py lines 57-62): the
formatter receives the uppercased `type` attribute and the three flags
compared against the string `'true'`. -/
def itemFormatterRc (type filenameonly relativepath flattenhtml : String) :
    RcIncludeFormatter :=
  ⟨strUpper type, filenameonly == "true", relativepath == "true",
   flattenhtml == "true"⟩

/-- The path-choice chain of `RcInclude.Format` (rc.py lines 410-416).
`absFilename` is `os.path.abspath(item.FileForLanguage(lang,
output_dir))`; `flattenResult` is `item.Flatten(output_dir)` (the
flatten-cache collaborator, §4.4); `makeRel` abstracts
`util.MakeRelativePath(output_dir, ·)`. -/
def rcIncludeChoosePath (fmt : RcIncludeFormatter)
    (absFilename flattenResult : String) (makeRel : String → String) :
    String :=
  if fmt.flatten_html then flattenResult
  else if fmt.filenameWithoutPath then basename absFilename
  else if fmt.relative_path_ then makeRel absFilename
  else absFilename

/-- The output line of `RcInclude.Format` for an include node (rc.py
line 423): name padded to 18, type padded to 18, the chosen path with
backslashes doubled, in quotes. -/
def rcIncludeFormat (fmt : RcIncludeFormatter) (name : String)
    (absFilename flattenResult : String) (makeRel : String → String) :
    String :=
  padRight 18 name ++ " " ++ padRight 18 fmt.type_ ++ " \""
    ++ escBackslash (rcIncludeChoosePath fmt absFilename flattenResult makeRel)
    ++ "\"\n"

/-- C10: the RC include formatter applies at most one path
transformation, by fixed precedence: flattenhtml first (so filenameonly
and relativepath are ignored whenever flattenhtml is set — first
conjunct, with both other attributes set to `'true'`), then
filenameonly (basename), then relativepath (path made relative to the
output directory), else the absolute resolved path; the emitted line
uses the chosen path, escaped. -/
theorem c10_include_path_precedence :
    (∀ (type fo rp : String) (absF flatF : String)
       (makeRel : String → String),
       rcIncludeChoosePath (itemFormatterRc type fo rp "true")
           absF flatF makeRel = flatF)
    ∧ (∀ (fmt : RcIncludeFormatter) (absF flatF : String)
       (makeRel : String → String),
       fmt.flatten_html = false → fmt.filenameWithoutPath = true →
       rcIncludeChoosePath fmt absF flatF makeRel = basename absF)
    ∧ (∀ (fmt : RcIncludeFormatter) (absF flatF : String)
       (makeRel : String → String),
       fmt.flatten_html = false → fmt.filenameWithoutPath = false →
       fmt.relative_path_ = true →
       rcIncludeChoosePath fmt absF flatF makeRel = makeRel absF)
    ∧ (∀ (fmt : RcIncludeFormatter) (absF flatF : String)
       (makeRel : String → String),
       fmt.flatten_html = false → fmt.filenameWithoutPath = false →
       fmt.relative_path_ = false →
       rcIncludeChoosePath fmt absF flatF makeRel = absF)
    ∧ (∀ (fmt : RcIncludeFormatter) (name absF flatF : String)
       (makeRel : String → String),
       rcIncludeFormat fmt name absF flatF makeRel
         = padRight 18 name ++ " " ++ padRight 18 fmt.type_ ++ " \""
             ++ escBackslash
                  (rcIncludeChoosePath fmt absF flatF makeRel)
             ++ "\"\n") := by
  refine ⟨?_, ?_, ?_, ?_, ?_⟩
  · intro type fo rp absF flatF makeRel
    simp [rcIncludeChoosePath, itemFormatterRc]
  · intro fmt absF flatF makeRel h1 h2
    simp [rcIncludeChoosePath, h1, h2]
  · intro fmt absF flatF makeRel h1 h2 h3
    simp [rcIncludeChoosePath, h1, h2, h3]
  · intro fmt absF flatF makeRel h1 h2 h3
    simp [rcIncludeChoosePath, h1, h2, h3]
  · intro fmt name absF flatF makeRel
    rfl

theorem c10_include_path_precedence_witness :
    rcIncludeChoosePath (itemFormatterRc "txt" "true" "true" "true")
        "/a/b.txt" "b_flat.txt" (fun s => s) = "b_flat.txt"
    ∧ rcIncludeChoosePath ⟨"TXT", true, true, false⟩
        "/a/b.txt" "b_flat.txt" (fun s => s) = basename "/a/b.txt"
    ∧ rcIncludeChoosePath ⟨"TXT", false, true, false⟩
        "/a/b.txt" "b_flat.txt" (fun s => s) = (fun s => s) "/a/b.txt"
    ∧ rcIncludeChoosePath ⟨"TXT", false, false, false⟩
        "/a/b.txt" "b_flat.txt" (fun s => s) = "/a/b.txt" :=
  ⟨c10_include_path_precedence.1 "txt" "true" "true" "/a/b.txt"
      "b_flat.txt" (fun s => s),
   c10_include_path_precedence.2.1 ⟨"TXT", true, true, false⟩
      "/a/b.txt" "b_flat.txt" (fun s => s) rfl rfl,
   c10_include_path_precedence.2.2.1 ⟨"TXT", false, true, false⟩
      "/a/b.txt" "b_flat.txt" (fun s => s) rfl rfl rfl,
   c10_include_path_precedence.2.2.2.1 ⟨"TXT", false, false, false⟩
      "/a/b.txt" "b_flat.txt" (fun s => s) rfl rfl rfl⟩

end GritRc
